import Mathlib

/-!
Shallow embedding of the authentication and authorization core of the
Phase-II task-management backend (`src/Phase-II/src`), covering:

* `src/utils/jwt.py` — token issuance and verification (PyJWT `encode`/`decode`
  over a shared HMAC secret, modelled symbolically as a perfect MAC);
* `src/services/token_service.py` — the revocation registry (Redis-backed or
  in-memory);
* `src/api/deps.py` — the access guard `get_current_user`;
* `src/utils/password.py` — the passlib bcrypt wrapper;
* `src/services/user_service.py` + `src/api/auth.py` — login and logout;
* `src/services/task_service.py` + `src/api/tasks.py` — per-user task CRUD.

Time is modelled as integer Unix seconds.  A signed token is a payload
together with a signature; signing with secret `s` over payload `p` yields the
symbolic signature `(s, p)`, and signature verification checks equality — the
standard perfect-MAC idealisation of HMAC-SHA256.  Strings that are not JWTs
at all are the `garbage` constructor.
-/

namespace TodoAuth

/-- Decidable equality for `Except`, so that concrete runs of the fallible
operations can be checked by `decide`. -/
instance exceptDecEq {ε α : Type} [DecidableEq ε] [DecidableEq α] :
    DecidableEq (Except ε α) := fun x y =>
  match x, y with
  | .ok a, .ok b =>
    if h : a = b then isTrue (congrArg Except.ok h)
    else isFalse (fun hx => h (Except.ok.inj hx))
  | .ok _, .error _ => isFalse (fun hx => Except.noConfusion hx)
  | .error _, .ok _ => isFalse (fun hx => Except.noConfusion hx)
  | .error a, .error b =>
    if h : a = b then isTrue (congrArg Except.error h)
    else isFalse (fun hx => h (Except.error.inj hx))

/-- JWT claim set used by this repository: `sub`, `email`, `exp` (Unix
seconds) and the refresh marker `type`.  Absent claims are `none`. -/
structure Payload where
  sub : Option String := none
  email : Option String := none
  exp : Option Int := none
  type : Option String := none
deriving DecidableEq, Repr

/-- A bearer-token string: either a well-formed JWT carrying a payload and a
(symbolic) HMAC signature, or a string that does not parse as a JWT. -/
inductive Token where
  | signed (payload : Payload) (sig : String × Payload)
  | garbage (s : String)
deriving DecidableEq, Repr

/-- Errors raised by PyJWT `jwt.decode` (module `jwt`, as imported by
`src/utils/jwt.py`).  These are PyJWT exception classes; they are NOT
subclasses of `jose.JWTError`, which is what `verify_token` catches. -/
inductive JWTDecodeError where
  | decodeError
  | invalidSignature
  | expiredSignature
deriving DecidableEq, Repr

/-- The signing secret `settings.BETTER_AUTH_SECRET` (a fixed configured
string shared by issuance and verification). -/
def BETTER_AUTH_SECRET : String := "better-auth-signing-secret"

/-- The configured access-token lifetime `settings.JWT_EXPIRATION_HOURS`
(default 24), in hours. -/
def JWT_EXPIRATION_HOURS : Int := 24

/-- PyJWT `jwt.encode(payload, secret, algorithm="HS256")`: attach the
symbolic MAC of the payload under the secret. -/
def jwt_encode (payload : Payload) (secret : String) : Token :=
  .signed payload (secret, payload)

/-- PyJWT `jwt.decode(token, secret, algorithms=["HS256"])` at time `now`:
reject non-JWT strings (`DecodeError`), reject bad signatures
(`InvalidSignatureError`), and reject `exp <= now` (`ExpiredSignatureError`;
PyJWT treats a token as expired iff `exp <= now - leeway` with leeway 0, so
validity requires `exp > now` strictly).  A missing `exp` claim is not
required by default options. -/
def jwt_decode (token : Token) (secret : String) (now : Int) :
    Except JWTDecodeError Payload :=
  match token with
  | .garbage _ => .error .decodeError
  | .signed p sig =>
    if sig ≠ (secret, p) then .error .invalidSignature
    else
      match p.exp with
      | some e => if e ≤ now then .error .expiredSignature else .ok p
      | none => .ok p

/-- Result of `TokenData(user_id=..., email=...)` in `src/schemas/auth.py`
(the `exp` field defaults to `None` and is never set by the verifiers). -/
structure TokenData where
  user_id : String
  email : String
  exp : Option Int := none
deriving DecidableEq, Repr

/-- Outcome of a verification/endpoint call: a value, a raised
`HTTPException status detail`, or an uncaught library exception propagating
out (PyJWT decode errors are not `jose.JWTError`, so the `except JWTError`
clauses in `src/utils/jwt.py` do not catch them). -/
inductive Outcome (α : Type) where
  | ok (a : α)
  | httpError (status : Nat) (detail : String)
  | libError (e : JWTDecodeError)
deriving DecidableEq, Repr

/-- Whether an outcome is a failure (anything but `ok`). -/
def Outcome.isFailure {α : Type} : Outcome α → Bool
  | .ok _ => false
  | .httpError _ _ => true
  | .libError _ => true

/-- Python truthiness of an optional `timedelta` argument, in seconds:
`if expires_delta:` is false for `None` and for a zero delta. -/
def deltaTruthy : Option Int → Bool
  | none => false
  | some d => d ≠ 0

/-- Expiry computed by `create_access_token` at `now`: `now + expires_delta`
when the delta is truthy, else the configured default of
`JWT_EXPIRATION_HOURS` hours. -/
def accessExpiry (now : Int) (delta : Option Int) : Int :=
  if deltaTruthy delta then now + delta.getD 0
  else now + JWT_EXPIRATION_HOURS * 3600

/-- Expiry computed by `create_refresh_token` at `now`: `now + expires_delta`
when the delta is truthy, else the 7-day default. -/
def refreshExpiry (now : Int) (delta : Option Int) : Int :=
  if deltaTruthy delta then now + delta.getD 0
  else now + 7 * 86400

/-- `create_access_token(data, expires_delta)` from `src/utils/jwt.py`,
issued at time `now`: set `exp` to the computed expiry and sign with the
shared secret. -/
def create_access_token (data : Payload) (now : Int)
    (expires_delta : Option Int := none) : Token :=
  jwt_encode { data with exp := some (accessExpiry now expires_delta) }
    BETTER_AUTH_SECRET

/-- `create_refresh_token(data, expires_delta)` from `src/utils/jwt.py`,
issued at time `now`: set `exp` (default 7 days) and the `type = "refresh"`
marker, then sign with the shared secret. -/
def create_refresh_token (data : Payload) (now : Int)
    (expires_delta : Option Int := none) : Token :=
  jwt_encode
    { data with exp := some (refreshExpiry now expires_delta),
                type := some "refresh" }
    BETTER_AUTH_SECRET

/-- `verify_token(token)` from `src/utils/jwt.py` at time `now`: decode and
check signature and expiry; require `sub` and `email` claims.  A decode
failure is a PyJWT exception, which the `except JWTError` (jose) clause does
not catch, so it propagates as `libError`; a missing `sub`/`email` raises the
401 credentials exception.  No check of the `type` claim is performed. -/
def verify_token (token : Token) (now : Int) : Outcome TokenData :=
  match jwt_decode token BETTER_AUTH_SECRET now with
  | .error e => .libError e
  | .ok payload =>
    match payload.sub, payload.email with
    | some u, some em => .ok { user_id := u, email := em }
    | _, _ => .httpError 401 "Could not validate credentials"

/-- `verify_access_token(token)` from `src/utils/jwt.py`: delegates directly
to `verify_token` with no additional checks. -/
def verify_access_token (token : Token) (now : Int) : Outcome TokenData :=
  verify_token token now

/-- `verify_refresh_token(token)` from `src/utils/jwt.py` at time `now`:
decode, then require `type == "refresh"`, then require `sub` and `email`.
The raised `HTTPException`s escape the `try` (they are not `JWTError`s);
decode failures propagate as PyJWT exceptions. -/
def verify_refresh_token (token : Token) (now : Int) : Outcome TokenData :=
  match jwt_decode token BETTER_AUTH_SECRET now with
  | .error e => .libError e
  | .ok payload =>
    if payload.type ≠ some "refresh" then
      .httpError 401 "Invalid token type"
    else
      match payload.sub, payload.email with
      | some u, some em => .ok { user_id := u, email := em }
      | _, _ => .httpError 401 "Could not validate credentials"

/-- The `exp` claim carried by a token (none for non-JWT strings). -/
def Token.expClaim : Token → Option Int
  | .signed p _ => p.exp
  | .garbage _ => none

/-- The `type` claim carried by a token (none for non-JWT strings). -/
def Token.typeClaim : Token → Option String
  | .signed p _ => p.type
  | .garbage _ => none

/-! ## Revocation registry — `src/services/token_service.py` -/

/-- State of the Redis connection used by `TokenService` when
`settings.REDIS_URL` is configured: the keys currently stored in the two
namespaces `blacklisted_token:*` and `user_logout:*`, and whether every
command currently raises (connection failure). -/
structure RedisConn where
  failing : Bool
  blacklisted_tokens : List Token
  user_logouts : List String
deriving DecidableEq, Repr

/-- Backing store selected in `TokenService.__init__`: Redis when
`settings.REDIS_URL` is set, otherwise the in-memory set
`self._blacklisted_tokens` (the default, since `REDIS_URL` defaults to
`None`). -/
inductive Backend where
  | redis (conn : RedisConn)
  | memory (blacklisted_tokens : List Token)
deriving DecidableEq, Repr

/-- `TokenService.blacklist_token(token)`: store the token under
`blacklisted_token:<token>` (Redis `SETEX`) or add it to the in-memory set.
Any exception is caught and turned into `False`; no log is emitted in either
branch.  Returns the reported success flag and the updated store. -/
def blacklist_token (b : Backend) (token : Token) : Bool × Backend :=
  match b with
  | .redis c =>
    if c.failing then (false, .redis c)
    else (true, .redis { c with blacklisted_tokens := token :: c.blacklisted_tokens })
  | .memory l => (true, .memory (token :: l))

/-- `TokenService.is_token_blacklisted(token)`: Redis `EXISTS` on
`blacklisted_token:<token>` or in-memory membership; any exception is caught
and the check answers `False` ("if there's an error checking, assume it's
not blacklisted"). -/
def is_token_blacklisted (b : Backend) (token : Token) : Bool :=
  match b with
  | .redis c => if c.failing then false else c.blacklisted_tokens.contains token
  | .memory l => l.contains token

/-- `TokenService.blacklist_user_tokens(user_id)`: Redis `SETEX` on
`user_logout:<user_id>`; in the in-memory branch the body is `pass` — nothing
is recorded — yet `True` is returned.  Exceptions are caught as `False`. -/
def blacklist_user_tokens (b : Backend) (user_id : String) : Bool × Backend :=
  match b with
  | .redis c =>
    if c.failing then (false, .redis c)
    else (true, .redis { c with user_logouts := user_id :: c.user_logouts })
  | .memory l => (true, .memory l)

/-- `TokenService.is_user_logged_out(user_id)`: Redis `EXISTS` on
`user_logout:<user_id>`; the in-memory branch always answers `False`;
exceptions are caught as `False`. -/
def is_user_logged_out (b : Backend) (user_id : String) : Bool :=
  match b with
  | .redis c => if c.failing then false else c.user_logouts.contains user_id
  | .memory _ => false

/-! ## Password hashing — `src/utils/password.py` -/

/-- A stored password hash as passlib's `CryptContext(schemes=["bcrypt"])`
sees it: either a well-formed bcrypt hash (salted, so carrying its salt and
the hashed plaintext symbolically) or a string that passlib cannot identify
as any configured scheme. -/
inductive StoredHash where
  | bcrypt (salt : Nat) (password : String)
  | malformed (s : String)
deriving DecidableEq, Repr

/-- Exception raised by passlib when a hash cannot be identified
(`passlib.exc.UnknownHashError`, a `ValueError`). -/
inductive PasslibError where
  | unknownHash
deriving DecidableEq, Repr

/-- Modelled `pwd_context.verify(secret, hash)` of passlib's bcrypt-only
`CryptContext`: for a well-formed bcrypt hash it reports whether the
plaintext matches; for a hash it cannot identify it raises
`UnknownHashError` (it does not return `False`). -/
def pwd_context_verify (plain : String) (h : StoredHash) :
    Except PasslibError Bool :=
  match h with
  | .bcrypt _ pw => .ok (plain == pw)
  | .malformed _ => .error .unknownHash

/-- `hash_password(password)` from `src/utils/password.py`
(`pwd_context.hash`), with the per-call random salt made explicit. -/
def hash_password (password : String) (salt : Nat) : StoredHash :=
  .bcrypt salt password

/-- `verify_password(plain_password, hashed_password)` from
`src/utils/password.py`: a direct call to `pwd_context.verify` with no
exception handling around it. -/
def verify_password (plain : String) (hashed : StoredHash) :
    Except PasslibError Bool :=
  pwd_context_verify plain hashed

/-! ## Users and the access guard — `src/models/user.py`, `src/api/deps.py` -/

/-- A user row (`src/models/user.py`): opaque id, unique email, stored
password hash, active flag.  UUIDs are modelled as opaque strings. -/
structure User where
  id : String
  email : String
  hashed_password : StoredHash
  is_active : Bool
deriving DecidableEq, Repr

/-- `DatabaseService.get_user_by_id`: first row whose `id` matches. -/
def get_user_by_id (db : List User) (user_id : String) : Option User :=
  db.find? (fun u => u.id == user_id)

/-- `DatabaseService.get_user_by_email`: first row whose `email` matches
(exact, case-sensitive comparison). -/
def get_user_by_email (db : List User) (email : String) : Option User :=
  db.find? (fun u => u.email == email)

/-- `get_current_user` from `src/api/deps.py` at time `now`: verify the
bearer token via `verify_access_token`, load the user by the token's
subject, reject unknown or inactive users.  The whole body sits in a
`try/except Exception` that replaces every failure — library exceptions and
the inner `HTTPException`s alike — with the uniform
401 "Could not validate credentials".  The revocation registry
(`TokenService`) is never consulted anywhere in this function. -/
def get_current_user (token : Token) (db : List User) (now : Int) :
    Outcome User :=
  match verify_access_token token now with
  | .ok token_data =>
    match get_user_by_id db token_data.user_id with
    | some user =>
      if user.is_active then .ok user
      else .httpError 401 "Could not validate credentials"
    | none => .httpError 401 "Could not validate credentials"
  | _ => .httpError 401 "Could not validate credentials"

/-! ## Login — `src/services/user_service.py`, `src/api/auth.py` -/

/-- Character class `[a-zA-Z0-9._%+-]` of the local part in
`validate_email_format`'s regex (`src/utils/validation.py`). -/
def isLocalChar (c : Char) : Bool :=
  c.isAlphanum || c == '.' || c == '_' || c == '%' || c == '+' || c == '-'

/-- Character class `[a-zA-Z0-9.-]` of the domain part of the regex. -/
def isDomainChar (c : Char) : Bool :=
  c.isAlphanum || c == '.' || c == '-'

/-- Split a character list at every occurrence of `sep` (the semantics of
`str.split(sep)` for a one-character separator: always at least one piece,
empty pieces kept). -/
def splitOnChar (sep : Char) : List Char → List (List Char)
  | [] => [[]]
  | c :: cs =>
    match splitOnChar sep cs with
    | [] => if c = sep then [[], []] else [[c]]
    | piece :: pieces =>
      if c = sep then [] :: piece :: pieces else (c :: piece) :: pieces

/-- `validate_email_format(email)` from `src/utils/validation.py`: full
match of `^[a-zA-Z0-9._%+-]+@[a-zA-Z0-9.-]+\.[a-zA-Z]{2,}$`.  Since `@`
occurs in no character class there is exactly one `@`; since the trailing
`[a-zA-Z]{2,}$` contains no dot, the dot preceding it is the last dot of the
domain, so the regex matches iff the part after the last dot is alphabetic
of length ≥ 2 and the (dot-joined) part before it is a nonempty string of
domain characters. -/
def validate_email_format (email : String) : Bool :=
  match splitOnChar '@' email.toList with
  | [loc, domain] =>
    decide (0 < loc.length) && loc.all isLocalChar &&
    (match (splitOnChar '.' domain).reverse with
     | tld :: front :: rest =>
       decide (2 ≤ tld.length) && tld.all Char.isAlpha &&
       (!front.isEmpty || !rest.isEmpty) &&
       (front :: rest).all (fun piece => piece.all isDomainChar)
     | _ => false)
  | _ => false

/-- Request body of `POST /auth/login` (`LoginRequest` in
`src/schemas/auth.py`). -/
structure LoginRequest where
  email : String
  password : String
deriving DecidableEq, Repr

/-- The successful payload assembled by `UserService.authenticate_user`:
the fresh access token and the `user` dict (`id`, `email`). -/
structure AuthSuccess where
  token : Token
  user_id : String
  user_email : String
deriving DecidableEq, Repr

/-- `UserService.authenticate_user(db, login_data)` at time `now`: look the
user up by email; if absent, or the password does not verify, or the user is
inactive, return `None` — one indistinguishable `None` for all three.  A
passlib exception from `verify_password` would propagate (`.error`). -/
def authenticate_user (db : List User) (login : LoginRequest) (now : Int) :
    Except PasslibError (Option AuthSuccess) :=
  match get_user_by_email db login.email with
  | none => .ok none
  | some user =>
    match verify_password login.password user.hashed_password with
    | .error e => .error e
    | .ok pw_ok =>
      if !pw_ok then .ok none
      else if !user.is_active then .ok none
      else
        .ok (some
          { token := create_access_token
              { sub := some user.id, email := some user.email } now
            user_id := user.id
            user_email := user.email })

/-- Outcome of the `POST /auth/login` endpoint. -/
inductive LoginOutcome where
  | success (auth : AuthSuccess)
  | httpError (status : Nat) (detail : String)
  | libError (e : PasslibError)
deriving DecidableEq, Repr

/-- `login_user(login_data)` from `src/api/auth.py` at time `now`: reject a
badly formatted email with 400, then call `authenticate_user`; a `None`
result becomes the single 401 "Incorrect email or password". -/
def login_user (db : List User) (login : LoginRequest) (now : Int) :
    LoginOutcome :=
  if !validate_email_format login.email then
    .httpError 400 "Invalid email format"
  else
    match authenticate_user db login now with
    | .error e => .libError e
    | .ok none => .httpError 401 "Incorrect email or password"
    | .ok (some a) => .success a

/-! ## Logout — `src/api/auth.py` -/

/-- Observable result of `POST /auth/logout` once `get_current_user` has
succeeded: the response body fields, the revocation store afterwards, and
every log record emitted on the way (the handler and `blacklist_token`
contain no logging call, so this list is built empty). -/
structure LogoutResult where
  message : String
  user_id : String
  backend : Backend
  logs : List String
deriving DecidableEq, Repr

/-- `logout_user(credentials, current_user)` from `src/api/auth.py`:
`blacklist_token` is called inside `try/except Exception: pass` (and itself
catches every store exception, returning `False`); whatever happens, the
endpoint returns the success body, and no log record is written. -/
def logout_user (b : Backend) (token : Token) (current_user_id : String) :
    LogoutResult :=
  let r := blacklist_token b token
  { message := "Successfully logged out"
    user_id := current_user_id
    backend := r.2
    logs := [] }

/-! ## Tasks — `src/models/task.py`, `src/services/task_service.py`,
`src/api/tasks.py` -/

/-- A task row: opaque id, owner reference, and the mutable fields touched
by updates (the remaining columns are irrelevant to the ownership logic).
UUIDs are modelled as opaque strings. -/
structure Task where
  id : String
  user_id : String
  title : String
  description : Option String
  completed : Bool
  updated_at : Int
deriving DecidableEq, Repr

/-- `TaskUpdate` (`src/schemas/task.py`): the optional fields applied by
`update_task` via `dict(exclude_unset=True)`. -/
structure TaskUpdate where
  title : Option String := none
  description : Option (Option String) := none
  completed : Option Bool := none
deriving DecidableEq, Repr

/-- `TaskService.get_task_by_id(db, task_id, user_id)`: the single query
`select(Task).where(Task.id == task_id, Task.user_id == user_id)` — the
ownership filter is part of the lookup itself. -/
def get_task_by_id (tasks : List Task) (task_id : String) (user_id : String) :
    Option Task :=
  tasks.find? (fun t => t.id == task_id && t.user_id == user_id)

/-- The `setattr` loop of `TaskService.update_task` followed by
`task.updated_at = datetime.utcnow()`. -/
def apply_task_update (t : Task) (u : TaskUpdate) (now : Int) : Task :=
  { t with
    title := u.title.getD t.title
    description := u.description.getD t.description
    completed := u.completed.getD t.completed
    updated_at := now }

/-- `TaskService.update_task(db, task_id, task_update, user_id)` at time
`now`: `None` when the owned lookup misses, otherwise the updated row and
the store after commit (rows are keyed by the unique primary id). -/
def update_task (tasks : List Task) (task_id : String) (u : TaskUpdate)
    (user_id : String) (now : Int) : Option (Task × List Task) :=
  match get_task_by_id tasks task_id user_id with
  | none => none
  | some t =>
    let t2 := apply_task_update t u now
    some (t2, tasks.map (fun x => if x.id == task_id then t2 else x))

/-- `TaskService.delete_task(db, task_id, user_id)`: `False` when the owned
lookup misses, otherwise `True` and the store without that row. -/
def delete_task (tasks : List Task) (task_id : String) (user_id : String) :
    Bool × List Task :=
  match get_task_by_id tasks task_id user_id with
  | none => (false, tasks)
  | some t => (true, tasks.filter (fun x => !(x.id == t.id)))

/-- Outcome of a task endpoint: the handler's return value or a raised
`HTTPException`. -/
inductive ApiResult (α : Type) where
  | ok (a : α)
  | httpError (status : Nat) (detail : String)
deriving DecidableEq, Repr

/-- `GET /tasks/{task_id}` (`get_task` in `src/api/tasks.py`): 404
"Task not found or access denied" when the owned lookup misses. -/
def get_task_endpoint (tasks : List Task) (task_id : String)
    (current_user_id : String) : ApiResult Task :=
  match get_task_by_id tasks task_id current_user_id with
  | none => .httpError 404 "Task not found or access denied"
  | some t => .ok t

/-- `PUT /tasks/{task_id}` (`update_task` in `src/api/tasks.py`): 404 when
`TaskService.update_task` returns `None`; otherwise the updated row
(paired here with the store after commit). -/
def update_task_endpoint (tasks : List Task) (task_id : String)
    (u : TaskUpdate) (current_user_id : String) (now : Int) :
    ApiResult (Task × List Task) :=
  match update_task tasks task_id u current_user_id now with
  | none => .httpError 404 "Task not found or access denied"
  | some r => .ok r

/-- `DELETE /tasks/{task_id}` (`delete_task` in `src/api/tasks.py`): 404
when `TaskService.delete_task` returns `False`; otherwise the success
message (paired here with the store after commit). -/
def delete_task_endpoint (tasks : List Task) (task_id : String)
    (current_user_id : String) : ApiResult (String × List Task) :=
  match delete_task tasks task_id current_user_id with
  | (false, _) => .httpError 404 "Task not found or access denied"
  | (true, ts) => .ok ("Task deleted successfully", ts)

/-! ## Helper lemmas -/

/-- An access token issued for `(u, e)` verifies before its expiry and
yields exactly those claims. -/
theorem verify_token_of_issued (u e : String) (t_issue t_verify : Int)
    (delta : Option Int) (h : t_verify < accessExpiry t_issue delta) :
    verify_token (create_access_token { sub := some u, email := some e } t_issue delta) t_verify
      = .ok { user_id := u, email := e } := by
  simp [verify_token, create_access_token, jwt_encode, jwt_decode, Int.not_le.mpr h]

/-- A refresh token issued for `(u, e)` also passes `verify_access_token`
before its expiry: the access-side verifier never inspects the `type`
claim. -/
theorem verify_access_of_refresh (u e : String) (t_issue t_verify : Int)
    (delta : Option Int) (h : t_verify < refreshExpiry t_issue delta) :
    verify_access_token (create_refresh_token { sub := some u, email := some e } t_issue delta) t_verify
      = .ok { user_id := u, email := e } := by
  simp [verify_access_token, verify_token, create_refresh_token, jwt_encode, jwt_decode,
    Int.not_le.mpr h]

/-- `verify_refresh_token` fails on every token that does not carry
`type = "refresh"`. -/
theorem refresh_rejects_nonrefresh (t : Token) (now : Int)
    (h : Token.typeClaim t ≠ some "refresh") :
    (verify_refresh_token t now).isFailure = true := by
  cases t with
  | garbage s => rfl
  | signed p sig =>
    simp only [Token.typeClaim] at h
    by_cases hsig : sig = (BETTER_AUTH_SECRET, p)
    · cases hexp : p.exp with
      | none => simp [verify_refresh_token, jwt_decode, hsig, hexp, h, Outcome.isFailure]
      | some e =>
        by_cases hle : e ≤ now
        · simp [verify_refresh_token, jwt_decode, hsig, hexp, hle, Outcome.isFailure]
        · simp [verify_refresh_token, jwt_decode, hsig, hexp, hle, h, Outcome.isFailure]
    · simp [verify_refresh_token, jwt_decode, hsig, Outcome.isFailure]

/-! ## Claim theorems -/

/-- Claim C1, counterexample: the claim asserts that `verify_access_token`
rejects every refresh token.  It does not: the refresh token issued at time
0 for `("u7", "u7@mail.com")` carries `type = "refresh"` yet passes
`verify_access_token` at time 3600, yielding its claims. -/
theorem c1_access_accepts_refresh_counterexample :
    Token.typeClaim (create_refresh_token { sub := some "u7", email := some "u7@mail.com" } 0)
      = some "refresh"
    ∧ verify_access_token
        (create_refresh_token { sub := some "u7", email := some "u7@mail.com" } 0) 3600
      = .ok { user_id := "u7", email := "u7@mail.com" } := by
  decide

/-- Claim C1, amended: type discrimination holds only in the refresh
direction.  `verify_refresh_token` rejects every token lacking
`type = "refresh"`, but `verify_access_token` never inspects the `type`
claim and accepts a validly signed, unexpired refresh token carrying `sub`
and `email`. -/
theorem c1_type_discrimination_amended :
    (∀ (t : Token) (now : Int), Token.typeClaim t ≠ some "refresh" →
      (verify_refresh_token t now).isFailure = true)
    ∧ (∀ (u e : String) (t_issue : Int) (delta : Option Int) (t_verify : Int),
      t_verify < refreshExpiry t_issue delta →
      verify_access_token
        (create_refresh_token { sub := some u, email := some e } t_issue delta) t_verify
        = .ok { user_id := u, email := e }) :=
  ⟨fun t now h => refresh_rejects_nonrefresh t now h,
   fun u e t_issue delta t_verify h => verify_access_of_refresh u e t_issue t_verify delta h⟩

/-- Witness for C1 amended: an ordinary access token (no `type` claim)
fails refresh verification, and a concrete refresh token is accepted by
`verify_access_token` an hour after issuance. -/
theorem c1_type_discrimination_amended_witness :
    (verify_refresh_token (create_access_token { sub := some "u7", email := some "u7@mail.com" } 0) 3600).isFailure = true
    ∧ verify_access_token
        (create_refresh_token { sub := some "u7", email := some "u7@mail.com" } 0) 3600
      = .ok { user_id := "u7", email := "u7@mail.com" } :=
  ⟨c1_type_discrimination_amended.1
      (create_access_token { sub := some "u7", email := some "u7@mail.com" } 0) 3600 (by decide),
   c1_type_discrimination_amended.2 "u7" "u7@mail.com" 0 none 3600 (by decide)⟩

/-- Claim C2, counterexample: the claim asserts that after `blacklist_token`
the Access Guard rejects the revoked token.  It does not: the concrete
access token below is recorded as blacklisted (the revocation entry is
fresh, the token unexpired), yet `get_current_user` returns the user. -/
theorem c2_revoked_token_accepted_counterexample :
    is_token_blacklisted
        ((blacklist_token (Backend.memory [])
            (create_access_token { sub := some "u1", email := some "a@x.com" } 0)).2)
        (create_access_token { sub := some "u1", email := some "a@x.com" } 0) = true
    ∧ get_current_user
        (create_access_token { sub := some "u1", email := some "a@x.com" } 0)
        [{ id := "u1", email := "a@x.com", hashed_password := .bcrypt 0 "Right1pw",
           is_active := true }] 3600
      = .ok { id := "u1", email := "a@x.com", hashed_password := .bcrypt 0 "Right1pw",
              is_active := true } := by
  decide

/-- Claim C2, amended: `get_current_user` never consults the revocation
registry.  Even when the presented token is blacklisted, or its user is
marked logged-out everywhere, the guard accepts the token whenever the
signature is valid, the expiry is in the future, and the subject resolves
to an active user — revocation has no effect on the Access Guard. -/
theorem c2_guard_ignores_revocation (b : Backend) (u e : String)
    (t_issue t_verify : Int) (delta : Option Int) (user : User) (db : List User)
    (hrev : is_token_blacklisted b
        (create_access_token { sub := some u, email := some e } t_issue delta) = true
      ∨ is_user_logged_out b u = true)
    (hexp : t_verify < accessExpiry t_issue delta)
    (hfind : get_user_by_id db u = some user)
    (hactive : user.is_active = true) :
    get_current_user (create_access_token { sub := some u, email := some e } t_issue delta)
      db t_verify = .ok user := by
  unfold get_current_user verify_access_token
  rw [verify_token_of_issued u e t_issue t_verify delta hexp]
  simp [hfind, hactive]

/-- Witness for C2 amended: a concrete in-memory registry holding the token,
a one-user store, and the guard returning that user anyway. -/
theorem c2_guard_ignores_revocation_witness :
    get_current_user (create_access_token { sub := some "u1", email := some "a@x.com" } 0)
      [{ id := "u1", email := "a@x.com", hashed_password := .bcrypt 0 "Right1pw",
          is_active := true }] 3600
      = .ok { id := "u1", email := "a@x.com", hashed_password := .bcrypt 0 "Right1pw",
              is_active := true } :=
  c2_guard_ignores_revocation
    (Backend.memory [create_access_token { sub := some "u1", email := some "a@x.com" } 0])
    "u1" "a@x.com" 0 3600 none _ _
    (Or.inl (by decide)) (by decide) (by decide) (by decide)

/-- Claim C3: round-trip — verifying the token issued for `(u, e)` succeeds
before the token's expiry and yields claims with subject `u` and email
`e`. -/
theorem c3_round_trip (u e : String) (t_issue t_verify : Int)
    (delta : Option Int) (h : t_verify < accessExpiry t_issue delta) :
    verify_token (create_access_token { sub := some u, email := some e } t_issue delta) t_verify
      = .ok { user_id := u, email := e } :=
  verify_token_of_issued u e t_issue t_verify delta h

/-- Witness for C3: a concrete round trip one hour after issuance. -/
theorem c3_round_trip_witness :
    verify_token (create_access_token { sub := some "u1", email := some "a@x.com" } 0) 3600
      = .ok { user_id := "u1", email := "a@x.com" } :=
  c3_round_trip "u1" "a@x.com" 0 3600 none (by decide)

/-- Claim C4: a token whose `exp` claim is not in the future fails
verification, and a verification that does not fail implies `exp` is
strictly greater than the verifier's current time (no clock-skew
allowance). -/
theorem c4_expiry_strict (t : Token) (now e : Int)
    (hexp : Token.expClaim t = some e) :
    (e ≤ now → (verify_token t now).isFailure = true)
    ∧ ((verify_token t now).isFailure = false → now < e) := by
  cases t with
  | garbage s =>
    refine ⟨fun _ => rfl, fun hf => ?_⟩
    simp [verify_token, jwt_decode, Outcome.isFailure] at hf
  | signed p sig =>
    simp only [Token.expClaim] at hexp
    by_cases hsig : sig = (BETTER_AUTH_SECRET, p)
    · by_cases hle : e ≤ now
      · refine ⟨fun _ => ?_, fun hf => ?_⟩
        · simp [verify_token, jwt_decode, hsig, hexp, hle, Outcome.isFailure]
        · simp [verify_token, jwt_decode, hsig, hexp, hle, Outcome.isFailure] at hf
      · exact ⟨fun hc => absurd hc hle, fun _ => not_le.mp hle⟩
    · refine ⟨fun _ => ?_, fun hf => ?_⟩
      · simp [verify_token, jwt_decode, hsig, Outcome.isFailure]
      · simp [verify_token, jwt_decode, hsig, Outcome.isFailure] at hf

/-- Witness for C4: a token issued with `ttl = -1s` (the spec's example) has
its expiry one second before issuance and fails verification at the issue
instant. -/
theorem c4_expiry_strict_witness :
    (verify_token (create_access_token { sub := some "u9", email := some "b@y.org" } 5 (some (-1))) 5).isFailure = true :=
  (c4_expiry_strict
      (create_access_token { sub := some "u9", email := some "b@y.org" } 5 (some (-1)))
      5 4 (by decide)).1 (by decide)

/-- Claim C5: uniform login failure — an unknown email, a wrong password
against a well-formed stored hash, and a correct password on an inactive
account all yield the one 401 "Incorrect email or password" from the login
endpoint. -/
theorem c5_uniform_login_failure (db : List User) (login : LoginRequest) (now : Int)
    (hemail : validate_email_format login.email = true)
    (hfail :
      get_user_by_email db login.email = none
      ∨ (∃ user, get_user_by_email db login.email = some user
          ∧ verify_password login.password user.hashed_password = .ok false)
      ∨ (∃ user, get_user_by_email db login.email = some user
          ∧ verify_password login.password user.hashed_password = .ok true
          ∧ user.is_active = false)) :
    login_user db login now = .httpError 401 "Incorrect email or password" := by
  rcases hfail with hnone | ⟨user, hu, hv⟩ | ⟨user, hu, hv, hact⟩
  · simp [login_user, authenticate_user, hemail, hnone]
  · simp [login_user, authenticate_user, hemail, hu, hv]
  · simp [login_user, authenticate_user, hemail, hu, hv, hact]

/-- Witness for C5: a wrong password against an existing active user with a
well-formed bcrypt hash yields the uniform 401. -/
theorem c5_uniform_login_failure_witness :
    login_user
      [{ id := "u1", email := "a@x.com", hashed_password := .bcrypt 7 "Right1pw",
         is_active := true }]
      { email := "a@x.com", password := "Wrong1pw" } 0
      = .httpError 401 "Incorrect email or password" :=
  c5_uniform_login_failure _ _ 0 (by decide)
    (Or.inr (Or.inl
      ⟨{ id := "u1", email := "a@x.com", hashed_password := .bcrypt 7 "Right1pw",
         is_active := true }, by decide, by decide⟩))

/-- Claim C6: ownership isolation — when no task with the given id owned by
the principal exists (whether the task belongs to another user or does not
exist at all), get, update and delete each answer the same
404 "Task not found or access denied"; and a successful get only ever
returns a task owned by the principal. -/
theorem c6_ownership_isolation (tasks : List Task) (task_id principal : String)
    (u : TaskUpdate) (now : Int) :
    ((∀ t ∈ tasks, ¬(t.id = task_id ∧ t.user_id = principal)) →
      get_task_endpoint tasks task_id principal
          = .httpError 404 "Task not found or access denied"
      ∧ update_task_endpoint tasks task_id u principal now
          = .httpError 404 "Task not found or access denied"
      ∧ delete_task_endpoint tasks task_id principal
          = .httpError 404 "Task not found or access denied")
    ∧ (∀ t, get_task_endpoint tasks task_id principal = .ok t →
        t.id = task_id ∧ t.user_id = principal) := by
  constructor
  · intro h
    have hn : get_task_by_id tasks task_id principal = none := by
      apply List.find?_eq_none.mpr
      intro x hx
      simp only [Bool.and_eq_true, beq_iff_eq, not_and]
      intro h1 h2
      exact h x hx ⟨h1, h2⟩
    exact ⟨by simp [get_task_endpoint, hn],
           by simp [update_task_endpoint, update_task, hn],
           by simp [delete_task_endpoint, delete_task, hn]⟩
  · intro t ht
    unfold get_task_endpoint at ht
    cases hf : get_task_by_id tasks task_id principal with
    | none => rw [hf] at ht; exact absurd ht (by simp)
    | some t0 =>
      rw [hf] at ht
      cases ht
      have hp := List.find?_some hf
      simp only [Bool.and_eq_true, beq_iff_eq] at hp
      exact hp

/-- Witness for C6: user B probing user A's task gets the three 404s. -/
theorem c6_ownership_isolation_witness :
    get_task_endpoint
        [{ id := "t1", user_id := "uA", title := "T", description := none,
           completed := false, updated_at := 0 }] "t1" "uB"
      = .httpError 404 "Task not found or access denied"
    ∧ update_task_endpoint
        [{ id := "t1", user_id := "uA", title := "T", description := none,
           completed := false, updated_at := 0 }] "t1" { title := some "X" } "uB" 9
      = .httpError 404 "Task not found or access denied"
    ∧ delete_task_endpoint
        [{ id := "t1", user_id := "uA", title := "T", description := none,
           completed := false, updated_at := 0 }] "t1" "uB"
      = .httpError 404 "Task not found or access denied" :=
  (c6_ownership_isolation _ "t1" "uB" { title := some "X" } 9).1 (by decide)

/-- Claim C7, counterexample: the claim asserts that `verify_password`
returns `false` on a malformed stored hash and never raises.  In fact
passlib's `CryptContext.verify` raises `UnknownHashError` on a hash it
cannot identify, and `verify_password` wraps it with no exception handling,
so the call errors instead of returning `false`. -/
theorem c7_verify_password_malformed_counterexample :
    verify_password "Secret123" (StoredHash.malformed "not-a-bcrypt-hash")
      = .error .unknownHash
    ∧ verify_password "Secret123" (StoredHash.malformed "not-a-bcrypt-hash")
      ≠ .ok false := by
  decide

/-- Claim C7, amended: on a malformed stored hash `verify_password`
propagates passlib's `UnknownHashError` rather than returning `false`; and
it never reports a match except for a well-formed hash of the same
plaintext. -/
theorem c7_verify_password_malformed (plain s : String) (h : StoredHash) :
    verify_password plain (StoredHash.malformed s) = .error .unknownHash
    ∧ (verify_password plain h = .ok true → ∃ salt, h = hash_password plain salt) := by
  refine ⟨rfl, ?_⟩
  intro hm
  cases h with
  | bcrypt salt pw =>
    have he : plain = pw := by
      have hb : (plain == pw) = true := by
        simpa [verify_password, pwd_context_verify] using hm
      exact beq_iff_eq.mp hb
    exact ⟨salt, by simp [hash_password, he]⟩
  | malformed s2 => simp [verify_password, pwd_context_verify] at hm

/-- Witness for C7 amended: a malformed hash errors, and the only matching
hash for "Right1pw" is a bcrypt hash of "Right1pw" itself. -/
theorem c7_verify_password_malformed_witness :
    verify_password "Right1pw" (StoredHash.malformed "bad") = .error .unknownHash
    ∧ ∃ salt, hash_password "Right1pw" 3 = hash_password "Right1pw" salt :=
  ⟨(c7_verify_password_malformed "Right1pw" "bad" (hash_password "Right1pw" 3)).1,
   (c7_verify_password_malformed "Right1pw" "bad" (hash_password "Right1pw" 3)).2 (by decide)⟩

/-- Claim C8 (code bug): when the revocation store raises, `blacklist_token`
reports `False` (the exception is swallowed) and the logout endpoint still
returns the success body — but, contrary to the claim, the spec and the
handler's own comment, no log record is emitted anywhere on the path: the
observable log output is empty. -/
theorem c8_logout_swallows_store_error (bl : List Token) (lo : List String)
    (t : Token) (uid : String) :
    (blacklist_token
        (Backend.redis { failing := true, blacklisted_tokens := bl, user_logouts := lo }) t).1
      = false
    ∧ logout_user
        (Backend.redis { failing := true, blacklisted_tokens := bl, user_logouts := lo }) t uid
      = { message := "Successfully logged out", user_id := uid,
          backend := Backend.redis
            { failing := true, blacklisted_tokens := bl, user_logouts := lo },
          logs := [] } :=
  ⟨rfl, rfl⟩

/-- Claim C9: the revocation checks fail open — on a raising store,
`is_token_blacklisted` answers `false` even for a token whose revocation
entry is present (first conjunct shows the healthy store would answer
`true`), and `is_user_logged_out` answers `false` even for a user with a
logout entry. -/
theorem c9_revocation_check_fails_open (bl : List Token) (lo : List String)
    (t : Token) (uid : String) :
    is_token_blacklisted
        (Backend.redis { failing := false, blacklisted_tokens := t :: bl, user_logouts := lo }) t
      = true
    ∧ is_token_blacklisted
        (Backend.redis { failing := true, blacklisted_tokens := t :: bl, user_logouts := lo }) t
      = false
    ∧ is_user_logged_out
        (Backend.redis { failing := true, blacklisted_tokens := bl, user_logouts := uid :: lo }) uid
      = false := by
  refine ⟨?_, rfl, rfl⟩
  simp [is_token_blacklisted]

/-- Claim C10: with no Redis configured (in-memory mode), user-wide logout
records nothing yet reports success for every user id, and the subsequent
logged-out check answers `false` for every user id. -/
theorem c10_memory_logout_noop (l : List Token) (uid : String) :
    blacklist_user_tokens (Backend.memory l) uid = (true, Backend.memory l)
    ∧ is_user_logged_out (Backend.memory l) uid = false :=
  ⟨rfl, rfl⟩

end TodoAuth
